import Mathlib

/-!
Verification development for the CI pull-request review agent
(`src/pr_review_agent_final.py`).

The program is a single sequential script: it validates four
environment-sourced values, reads a diff file and a Semgrep findings
file, short-circuits on a trivial diff, builds one prompt, calls a
remote generation service, and posts the result as a pull-request
comment.  We embed it shallowly: every pure computation becomes a Lean
function translated line by line from the source, and the effectful
orchestration becomes a function from the environment, the argv paths,
the file system (a map from path to optional content) and the two
remote services (modelled as functions returning `Except`, where
`Except.error` models a raised exception) to an observable `Trace`
recording exit code, file reads, prompt construction, network calls and
the posted comment.
-/

namespace PRAgent

/-- JSON values, modelling the structured data handled by Python's
`json.load` / `json.dumps` in the script.  A parsed findings file is a
top-level object, represented as its field list. -/
inductive JValue where
  | str (s : String)
  | num (n : Int)
  | bool (b : Bool)
  | null
  | arr (xs : List JValue)
  | obj (fields : List (String × JValue))

/-- Lowercase hexadecimal digit, as used by Python's `\uXXXX` escapes. -/
def hexDigit (n : Nat) : Char :=
  if n < 10 then Char.ofNat (48 + n) else Char.ofNat (87 + n)

/-- Four-digit lowercase hexadecimal rendering of `n` (for `\uXXXX`). -/
def hex4 (n : Nat) : String :=
  String.mk [hexDigit (n / 4096 % 16), hexDigit (n / 256 % 16),
             hexDigit (n / 16 % 16), hexDigit (n % 16)]

/-- Escape of a single character inside a JSON string literal, following
`json.dumps` with its default `ensure_ascii=True`: the two mandatory
escapes, the short forms for common control characters, `\uXXXX` for
the remaining control characters and for non-ASCII characters, with a
surrogate pair for characters beyond the basic multilingual plane. -/
def jsonEscapeChar (c : Char) : String :=
  if c = '"' then "\\\""
  else if c = '\\' then "\\\\"
  else if c = '\n' then "\\n"
  else if c = '\t' then "\\t"
  else if c = '\r' then "\\r"
  else if c = Char.ofNat 8 then "\\b"
  else if c = Char.ofNat 12 then "\\f"
  else if c.toNat < 32 then "\\u" ++ hex4 c.toNat
  else if c.toNat < 127 then String.singleton c
  else if c.toNat < 65536 then "\\u" ++ hex4 c.toNat
  else
    let v := c.toNat - 65536
    "\\u" ++ hex4 (55296 + v / 1024) ++ "\\u" ++ hex4 (56320 + v % 1024)

/-- Escape of a whole JSON string body. -/
def jsonEscape (s : String) : String :=
  String.join (s.data.map jsonEscapeChar)

/-- Run of `n` spaces, used for `json.dumps(..., indent=2)` indentation. -/
def spaces (n : Nat) : String :=
  String.mk (List.replicate n ' ')

/-- Stable insertion of a rendered object field into a key-sorted list
(realising `sort_keys=True`; comparison is code-point lexicographic,
as in Python). -/
def insertByKey (p : String × String) : List (String × String) → List (String × String)
  | [] => [p]
  | q :: qs => if q.1 ≤ p.1 then q :: insertByKey p qs else p :: q :: qs

/-- Sort rendered object fields by key (stable, like Python's `sorted`). -/
def sortFields (fs : List (String × String)) : List (String × String) :=
  fs.foldl (fun acc p => insertByKey p acc) []

mutual

/-- Embedding of Python's `json.dumps(v, indent=2, sort_keys=True)`,
called at indentation level `ind`.  Containers open on the current
line, put each element on its own line indented by two more spaces,
and close at the opening indentation; empty containers render inline. -/
def jdump : JValue → Nat → String
  | .null, _ => "null"
  | .bool true, _ => "true"
  | .bool false, _ => "false"
  | .num n, _ => toString n
  | .str s, _ => "\"" ++ jsonEscape s ++ "\""
  | .arr [], _ => "[]"
  | .arr (x :: xs), ind =>
      "[\n" ++ String.intercalate ",\n" (jdumpList (x :: xs) (ind + 2)) ++
      "\n" ++ spaces ind ++ "]"
  | .obj [], _ => "\x7b\x7d"
  | .obj (f :: fs), ind =>
      "\x7b\n" ++
      String.intercalate ",\n"
        ((sortFields (jdumpFields (f :: fs) (ind + 2))).map
          (fun kv => spaces (ind + 2) ++ "\"" ++ jsonEscape kv.1 ++ "\": " ++ kv.2)) ++
      "\n" ++ spaces ind ++ "\x7d"

/-- Rendered lines of an array's elements at indentation `ind`. -/
def jdumpList : List JValue → Nat → List String
  | [], _ => []
  | x :: xs, ind => (spaces ind ++ jdump x ind) :: jdumpList xs ind

/-- Keys paired with the rendered value of each object field at
indentation `ind` (sorting happens on the rendered pairs, which yields
the same text as sorting first since rendering ignores field order). -/
def jdumpFields : List (String × JValue) → Nat → List (String × String)
  | [], _ => []
  | (k, v) :: fs, ind => (k, jdump v ind) :: jdumpFields fs ind

end

/-- Python truthiness of an environment value (`os.getenv` result):
`None` and the empty string are falsy. -/
def truthy : Option String → Bool
  | none => false
  | some s => !s.isEmpty

/-- Python truthiness of the parsed `pr_number` (`None` and `0` are falsy). -/
def intTruthy : Option Int → Bool
  | none => false
  | some n => n != 0

/-- Run of decimal digits read as a number, or `none` when empty or
containing a non-digit (the `ValueError` case of Python's `int`). -/
def digitsToNat (cs : List Char) : Option Nat :=
  if cs.isEmpty then none
  else if cs.all Char.isDigit then
    some (cs.foldl (fun acc c => 10 * acc + (c.toNat - 48)) 0)
  else none

/-- Embedding of Python's `int(str)` on a string: surrounding
whitespace is stripped, one optional sign is allowed, then decimal
digits (Python's digit-group underscores are not modelled; no claim
exercises them).  `none` models a raised `ValueError`. -/
def pyInt (s : String) : Option Int :=
  let cs := ((s.data.dropWhile Char.isWhitespace).reverse.dropWhile
    Char.isWhitespace).reverse
  match cs with
  | '+' :: rest => (digitsToNat rest).map Int.ofNat
  | '-' :: rest => (digitsToNat rest).map (fun n => -(Int.ofNat n))
  | rest => (digitsToNat rest).map Int.ofNat

/-- Embedding of lines 15-18: `int(os.getenv("PR_NUMBER"))` with
`TypeError` (value absent) and `ValueError` (malformed) mapped to
`None`. -/
def parse_pr (s : Option String) : Option Int :=
  s.bind pyInt

/-- Python `len()` restricted to the values it is applied to in the
script (the object looked up at key `"results"`).  On `str`, `arr` and
`obj` it is the element count; on the remaining scalars Python would
raise `TypeError` (a case no findings file produced by the analysis
tool and no claim exercises); those are given value 0 here. -/
def pyLen : JValue → Nat
  | .arr xs => xs.length
  | .str s => s.length
  | .obj fs => fs.length
  | _ => 0

/-- Embedding of `semgrep_json.get("results", [])` (line 99): the value
at key `"results"` of the parsed findings object, defaulting to the
empty list when the key is absent. -/
def get_results (semgrep_json : List (String × JValue)) : JValue :=
  (List.lookup "results" semgrep_json).getD (JValue.arr [])

/-- Fixed portion of the prompt template before the findings count
(lines 101-107): the diff embedded verbatim in a fenced block, then the
findings section heading. -/
def promptIntro (diff_content : String) : String :=
  "\n### DIFF\n```diff\n" ++ diff_content ++ "\n```\n\n### SEMGREP FINDINGS"

/-- Fixed portion of the prompt template after the findings count
(lines 109-131): the serialized findings in a fenced block, then the
output-format specification and rules, verbatim from the source. -/
def promptOutro (findings : JValue) : String :=
  "\n```json\n" ++ jdump findings 0 ++
  "\n```\n\n### REQUIRED OUTPUT FORMAT (Strictly adhere to this structure. Max 140 words total.)\n\n### Summary\n- 2–3 bullets detailing exact PR changes.\n\n### Why It Matters\n- Real reasoning based only on diff and security findings.\n\n### Issues\n- Synthesized list of real issues found in diff and tool output.\n\n### Changes Required\n- 1–2 essential fixes that need to be made before merging.\n\nRULES:\n- Do not output the markdown headers *inside* the bullet points.\n- No hallucinations (use only diff and findings).\n"

/-- Embedding of `create_mega_prompt` (lines 96-132): the f-string
template instantiated with the raw diff, the findings count
(`len(findings)`) and `json.dumps(findings, indent=2, sort_keys=True)`. -/
def create_mega_prompt (diff_content : String) (semgrep_json : List (String × JValue)) : String :=
  let findings := get_results semgrep_json
  promptIntro diff_content ++ "\nTotal Findings: " ++ toString (pyLen findings) ++
    "\n" ++ promptOutro findings

/-- The fixed persona / system-instruction string (line 94). -/
def LLM_PERSONA : String :=
  "You are an expert technical PR reviewer. Your tone is professional and focused on actionable risks. Analyze the provided Git diff and Semgrep metadata to produce a structured review."

/-- The target model identifier (line 21). -/
def GEMINI_MODEL : String := "gemini-2.5-flash"

/-- First `n` code points of `s`, embedding Python slicing `s[:n]`. -/
def strTake (s : String) (n : Nat) : String :=
  String.mk (s.data.take n)

/-- Observable outcome of `call_gemini_api`: whether the remote
generation service was contacted, and the returned string. -/
structure GeminiOutcome where
  networkCalled : Bool
  result : String
deriving DecidableEq

/-- Embedding of `call_gemini_api` (lines 135-159).  The remote service
is a parameter taking the model identifier, the persona segment and the
user segment; `Except.ok t` models a response whose `.text` is `t`
(then stripped), and `Except.error e` models any raised exception with
message `str(e)` (including a `None` response text), mapped to the
truncated fallback string. -/
def call_gemini_api (api_key : Option String)
    (remote : String → String → String → Except String String)
    (mega_prompt : String) : GeminiOutcome :=
  if !truthy api_key then
    ⟨false, "Gemini API Call Failed: API Key is missing from the environment."⟩
  else
    match remote GEMINI_MODEL LLM_PERSONA mega_prompt with
    | .ok t => ⟨true, t.trim⟩
    | .error e => ⟨true, "Gemini API Call Failed. Exception: " ++ strTake e 100 ++ "..."⟩

/-- Rendering of the pull-request number inside the header f-string
(line 79); `none` renders as Python's `None`, though the guarded branch
never reaches it with `none`. -/
def prDisplay : Option Int → String
  | some n => toString n
  | none => "None"

/-- The fixed comment header containing the pull-request number (line 79). -/
def review_header (pr_number : Option Int) : String :=
  "## Automated Gemini Code Review for PR #" ++ prDisplay pr_number ++ "\n\n"

/-- Observable outcome of `post_review`: whether the hosting service
was contacted, the comment actually posted, the review text echoed to
the log (on the missing-identity and posting-failure paths), and a
`sys.exit` code when one was issued. -/
structure PostOutcome where
  remoteCalled : Bool
  posted : Option String
  loggedReview : Option String
  exited : Option Nat
deriving DecidableEq

/-- Embedding of `post_review` (lines 61-89).  The hosting collaborator
is a parameter from the final comment text to `Except`; `Except.error`
models any exception raised inside the `try` block (client creation,
repo/PR lookup, or comment creation), all of which land in the same
handler that logs the review text and exits 1. -/
def post_review (github_token repo_full_name : Option String) (pr_number : Option Int)
    (github : String → Except String Unit)
    (review_text : String) (skip_header : Bool) : PostOutcome :=
  if !(truthy github_token && truthy repo_full_name && intTruthy pr_number) then
    ⟨false, none, some review_text, none⟩
  else
    let final_comment :=
      if skip_header then review_text
      else review_header pr_number ++ review_text
    match github final_comment with
    | .ok _ => ⟨true, some final_comment, none, none⟩
    | .error _ => ⟨true, none, some review_text, some 1⟩

/-- The environment-sourced identity values read once at startup
(lines 11-18): three raw strings from `os.getenv` and the parsed
pull-request number. -/
structure Env where
  api_key : Option String
  github_token : Option String
  repo_full_name : Option String
  pr_number : Option Int

/-- The names collected at lines 168-172: each of the first three is
listed when its value is falsy, while `PR_NUMBER` is listed only when
the parsed value `is None` (so a parsed `0` fails validation yet is not
listed). -/
def missingVars (env : Env) : List String :=
  (if !truthy env.api_key then ["GEMINI_API_KEY"] else []) ++
  (if !truthy env.github_token then ["GITHUB_TOKEN"] else []) ++
  (if !truthy env.repo_full_name then ["REPO_FULL_NAME"] else []) ++
  (if env.pr_number.isNone then ["PR_NUMBER"] else [])

/-- The validation condition at line 167:
`api_key and github_token and repo_full_name and pr_number`
under Python truthiness. -/
def envValid (env : Env) : Bool :=
  truthy env.api_key && truthy env.github_token &&
    truthy env.repo_full_name && intTruthy env.pr_number

/-- The fixed trivial-diff message posted by the short-circuit (line 44). -/
def shortCircuitMsg : String :=
  "## Automated Gemini Code Review\n\n✅ **Agent Status:** No significant code diff detected to review."

/-- Result of reading the diff file (lines 36-39 of `read_inputs`). -/
structure DiffRead where
  content : String
  fileRead : Bool
deriving DecidableEq

/-- Embedding of lines 36-39: the diff file is opened only when the
path argument is truthy and the file exists (`fs p = some c` models an
existing readable file with content `c`); otherwise the diff text is
empty. -/
def read_diff (diff_path : Option String) (fs : String → Option String) : DiffRead :=
  match diff_path with
  | none => ⟨"", false⟩
  | some p =>
    if p.isEmpty then ⟨"", false⟩
    else match fs p with
      | none => ⟨"", false⟩
      | some c => ⟨c, true⟩

/-- Result of reading the findings file (lines 47-54 of `read_inputs`). -/
structure SemgrepRead where
  json : List (String × JValue)
  fileRead : Bool
  warning : Option String

/-- Embedding of lines 47-54: the findings file is opened only when the
path is truthy and the file exists; `jparse` models `json.load`, and a
parse failure with message `e` degrades to the error record
`{"error": str(e)}` together with a printed warning. -/
def read_semgrep (semgrep_path : Option String) (fs : String → Option String)
    (jparse : String → Except String (List (String × JValue))) : SemgrepRead :=
  match semgrep_path with
  | none => ⟨[], false, none⟩
  | some p =>
    if p.isEmpty then ⟨[], false, none⟩
    else match fs p with
      | none => ⟨[], false, none⟩
      | some c =>
        match jparse c with
        | .ok d => ⟨d, true, none⟩
        | .error e => ⟨[("error", JValue.str e)], true, some e⟩

/-- Observable trace of one run of the script's `__main__` block: the
process exit code, the missing-variable list if the validation gate
logged one, whether each input file was opened, the parse warning if
one was printed, the prompt if `create_mega_prompt` ran, whether the
generation service was contacted, and the publisher outcome if
`post_review` ran. -/
structure Trace where
  exitCode : Nat
  missingLogged : Option (List String)
  diffRead : Bool
  findingsRead : Bool
  parseWarning : Option String
  promptBuilt : Option String
  geminiCalled : Bool
  post : Option PostOutcome
deriving DecidableEq

/-- Embedding of the `__main__` block (lines 164-191) together with
`read_inputs` (lines 33-56): validate the environment (exit 1 logging
the missing names), read the diff, short-circuit below 10 characters by
posting the fixed message in header-skip mode and exiting 0 (or 1 if
the publisher itself exited), otherwise read the findings, build the
prompt, call the generation service and publish with the header. -/
def main_run (env : Env) (diff_path semgrep_path : Option String)
    (fs : String → Option String)
    (jparse : String → Except String (List (String × JValue)))
    (gemini : String → String → String → Except String String)
    (github : String → Except String Unit) : Trace :=
  if envValid env then
    let d := read_diff diff_path fs
    if d.content.length < 10 then
      let out := post_review env.github_token env.repo_full_name env.pr_number github
        shortCircuitMsg true
      ⟨out.exited.getD 0, none, d.fileRead, false, none, none, false, some out⟩
    else
      let sg := read_semgrep semgrep_path fs jparse
      let mega_prompt := create_mega_prompt d.content sg.json
      let g := call_gemini_api env.api_key gemini mega_prompt
      let out := post_review env.github_token env.repo_full_name env.pr_number github
        g.result false
      ⟨out.exited.getD 0, none, d.fileRead, sg.fileRead, sg.warning, some mega_prompt,
        g.networkCalled, some out⟩
  else
    ⟨1, some (missingVars env), false, false, none, none, false, none⟩

/-! Helper lemmas shared by the claim theorems. -/

/-- A valid environment has the full hosting identity (the last three
conjuncts of the line-167 condition). -/
theorem envValid_identity (env : Env) (h : envValid env = true) :
    (truthy env.github_token && truthy env.repo_full_name && intTruthy env.pr_number) = true := by
  simp only [envValid, Bool.and_eq_true] at h ⊢
  exact ⟨⟨h.1.1.2, h.1.2⟩, h.2⟩

/-- A valid environment has a truthy generation-service credential. -/
theorem envValid_api_key (env : Env) (h : envValid env = true) :
    truthy env.api_key = true := by
  simp only [envValid, Bool.and_eq_true] at h
  exact h.1.1.1

/-- The `"results"` lookup on the parse-error record is empty, so the
findings count degrades to zero. -/
theorem get_results_error_record (e : String) :
    get_results [("error", JValue.str e)] = JValue.arr [] := rfl

/-- C3: the Prompt Builder is a pure, deterministic function of its two
inputs: for every pair of (diff text, findings report) given twice, the
two produced prompt strings are byte-identical, with no dependence on
randomness, timestamps, or any other state. -/
theorem prompt_builder_deterministic (d₁ d₂ : String)
    (s₁ s₂ : List (String × JValue)) (hd : d₁ = d₂) (hs : s₁ = s₂) :
    create_mega_prompt d₁ s₁ = create_mega_prompt d₂ s₂ := by
  rw [hd, hs]

theorem prompt_builder_deterministic_witness :
    create_mega_prompt "0123456789" [] = create_mega_prompt "0123456789" [] :=
  prompt_builder_deterministic "0123456789" "0123456789" [] [] rfl rfl

/-- C6: for every prompt text, if the generation-service credential is
absent (falsy), the Review Requester returns the fixed failure string
naming the missing credential (containing "API Key is missing") and
performs no network call. -/
theorem api_key_missing_no_network (api_key : Option String)
    (remote : String → String → String → Except String String)
    (mega_prompt : String) (h : truthy api_key = false) :
    call_gemini_api api_key remote mega_prompt =
      ⟨false, "Gemini API Call Failed: API Key is missing from the environment."⟩ ∧
    ∃ p q, (call_gemini_api api_key remote mega_prompt).result =
      p ++ "API Key is missing" ++ q := by
  refine ⟨by simp [call_gemini_api, h], "Gemini API Call Failed: ", " from the environment.", ?_⟩
  simp [call_gemini_api, h]

theorem api_key_missing_no_network_witness :
    call_gemini_api none (fun _ _ _ => .ok "x") "p" =
      ⟨false, "Gemini API Call Failed: API Key is missing from the environment."⟩ ∧
    ∃ p q, (call_gemini_api none (fun _ _ _ => .ok "x") "p").result =
      p ++ "API Key is missing" ++ q :=
  api_key_missing_no_network none (fun _ _ _ => .ok "x") "p" rfl

/-- C7: the Review Requester never propagates an exception and always
returns a string: the three cases below are exhaustive, and on any
failure of the remote call it returns the fixed fallback embedding a
truncated (at most 100 characters) description of the failure. -/
theorem gemini_requester_total (api_key : Option String)
    (remote : String → String → String → Except String String)
    (mega_prompt : String) :
    (truthy api_key = false →
      (call_gemini_api api_key remote mega_prompt).result =
        "Gemini API Call Failed: API Key is missing from the environment.") ∧
    (∀ t, truthy api_key = true →
      remote GEMINI_MODEL LLM_PERSONA mega_prompt = .ok t →
      (call_gemini_api api_key remote mega_prompt).result = t.trim) ∧
    (∀ e, truthy api_key = true →
      remote GEMINI_MODEL LLM_PERSONA mega_prompt = .error e →
      (call_gemini_api api_key remote mega_prompt).result =
        "Gemini API Call Failed. Exception: " ++ strTake e 100 ++ "..." ∧
      (strTake e 100).length ≤ 100) := by
  refine ⟨fun h => by simp [call_gemini_api, h],
    fun t h ho => by simp [call_gemini_api, h, ho],
    fun e h he => ⟨by simp [call_gemini_api, h, he], ?_⟩⟩
  show (e.data.take 100).length ≤ 100
  exact List.length_take_le 100 e.data

theorem gemini_requester_total_witness :
    (call_gemini_api (some "k")
        (fun _ _ _ => .error (String.mk (List.replicate 150 'a'))) "p").result =
      "Gemini API Call Failed. Exception: " ++
        strTake (String.mk (List.replicate 150 'a')) 100 ++ "..." ∧
    (strTake (String.mk (List.replicate 150 'a')) 100).length ≤ 100 :=
  (gemini_requester_total (some "k")
    (fun _ _ _ => .error (String.mk (List.replicate 150 'a'))) "p").2.2
    (String.mk (List.replicate 150 'a')) rfl rfl

/-- C8: for every review text, if any of the three hosting-identity
values is missing (the line-64 condition is falsy), the Comment
Publisher does not invoke the remote posting call, logs the full review
text, and returns normally without exiting. -/
theorem publish_missing_identity (github_token repo_full_name : Option String)
    (pr_number : Option Int) (github : String → Except String Unit)
    (review_text : String) (skip_header : Bool)
    (h : (truthy github_token && truthy repo_full_name && intTruthy pr_number) = false) :
    post_review github_token repo_full_name pr_number github review_text skip_header =
      ⟨false, none, some review_text, none⟩ := by
  simp [post_review, h]

theorem publish_missing_identity_witness :
    post_review none (some "o/r") (some 7) (fun _ => .ok ()) "review" false =
      ⟨false, none, some "review", none⟩ :=
  publish_missing_identity none (some "o/r") (some 7) (fun _ => .ok ()) "review" false rfl

/-- C4: with full hosting identity and a findings report whose results
list has exactly one entry, the built prompt contains the line
`Total Findings: 1`; and when the generation call returns a text and
`skip_header` is false, the posted comment equals the fixed header
containing the pull-request number concatenated with that text. -/
theorem one_finding_prompt_and_header (diff t : String) (f : JValue)
    (github_token repo_full_name : Option String) (n : Int)
    (github : String → Except String Unit)
    (htok : truthy github_token = true) (hrepo : truthy repo_full_name = true)
    (hn : n ≠ 0)
    (hok : github ("## Automated Gemini Code Review for PR #" ++ toString n ++
      "\n\n" ++ t) = .ok ()) :
    (∃ p q, create_mega_prompt diff [("results", JValue.arr [f])] =
      p ++ "\nTotal Findings: 1\n" ++ q) ∧
    post_review github_token repo_full_name (some n) github t false =
      ⟨true, some ("## Automated Gemini Code Review for PR #" ++ toString n ++
        "\n\n" ++ t), none, none⟩ := by
  constructor
  · refine ⟨promptIntro diff, promptOutro (JValue.arr [f]), ?_⟩
    have hres : get_results [("results", JValue.arr [f])] = JValue.arr [f] := rfl
    have h0 : pyLen (JValue.arr [f]) = 1 := rfl
    have h1 : toString (1 : Nat) = "1" := by decide
    have lit : ("\nTotal Findings: " : String) ++ ("1" ++ "\n") = "\nTotal Findings: 1\n" := by
      decide
    simp only [create_mega_prompt, hres, h0, h1]
    rw [String.append_assoc (promptIntro diff ++ "\nTotal Findings: ") "1" "\n",
      String.append_assoc (promptIntro diff) "\nTotal Findings: " ("1" ++ "\n"), lit]
  · have hid : (truthy github_token && truthy repo_full_name && intTruthy (some n)) = true := by
      simp [htok, hrepo, intTruthy, hn]
    simp [post_review, hid, review_header, prDisplay, hok]

theorem one_finding_prompt_and_header_witness :
    (∃ p q, create_mega_prompt "0123456789" [("results", JValue.arr [JValue.obj [("rule", JValue.str "x")]])] =
      p ++ "\nTotal Findings: 1\n" ++ q) ∧
    post_review (some "t") (some "o/r") (some 7) (fun _ => Except.ok ()) "OK" false =
      ⟨true, some ("## Automated Gemini Code Review for PR #" ++ toString (7 : Int) ++
        "\n\n" ++ "OK"), none, none⟩ :=
  one_finding_prompt_and_header "0123456789" "OK" (JValue.obj [("rule", JValue.str "x")])
    (some "t") (some "o/r") 7 (fun _ => Except.ok ()) rfl rfl (by decide) rfl

/-- With the full hosting identity present, a publisher run either posts
the (optionally headed) text with no exit, or — when the remote call
raises — logs the review text and exits 1. -/
theorem post_review_valid_cases (github_token repo_full_name : Option String)
    (pr_number : Option Int) (github : String → Except String Unit)
    (review_text : String) (skip_header : Bool)
    (hid : (truthy github_token && truthy repo_full_name && intTruthy pr_number) = true) :
    post_review github_token repo_full_name pr_number github review_text skip_header =
      ⟨true, some (if skip_header then review_text
        else review_header pr_number ++ review_text), none, none⟩ ∨
    post_review github_token repo_full_name pr_number github review_text skip_header =
      ⟨true, none, some review_text, some 1⟩ := by
  simp only [post_review, hid, Bool.not_true, Bool.false_eq_true, if_false]
  cases h : github (if skip_header then review_text
      else review_header pr_number ++ review_text) with
  | ok u => left; rfl
  | error e => right; rfl

/-- C9: if the remote posting call raises, the Comment Publisher logs
the full unposted review text and terminates with exit code 1; and in a
full run with a valid environment this is the only fatal path: exit
code 1 implies the publisher's remote call was made and failed. -/
theorem publish_failure_fatal (github_token repo_full_name : Option String)
    (pr_number : Option Int) (github : String → Except String Unit)
    (review_text e : String) (skip_header : Bool)
    (hid : (truthy github_token && truthy repo_full_name && intTruthy pr_number) = true)
    (herr : github (if skip_header then review_text
      else review_header pr_number ++ review_text) = .error e) :
    post_review github_token repo_full_name pr_number github review_text skip_header =
      ⟨true, none, some review_text, some 1⟩ ∧
    (∀ env dp sp fs jparse gemini gh, envValid env = true →
      (main_run env dp sp fs jparse gemini gh).exitCode = 1 →
      ∃ o, (main_run env dp sp fs jparse gemini gh).post = some o ∧
        o.exited = some 1 ∧ o.remoteCalled = true) := by
  constructor
  · simp only [post_review, hid, Bool.not_true, Bool.false_eq_true, if_false, herr]
  · intro env dp sp fs jparse gemini gh henv hexit
    have hid2 := envValid_identity env henv
    by_cases hlen : (read_diff dp fs).content.length < 10
    · simp only [main_run, henv, if_true, hlen] at hexit ⊢
      rcases post_review_valid_cases env.github_token env.repo_full_name env.pr_number gh
          shortCircuitMsg true hid2 with hc | hc <;> rw [hc] at hexit ⊢
      · simp at hexit
      · exact ⟨_, rfl, rfl, rfl⟩
    · simp only [main_run, henv, if_true, hlen, if_false] at hexit ⊢
      rcases post_review_valid_cases env.github_token env.repo_full_name env.pr_number gh
          (call_gemini_api env.api_key gemini
            (create_mega_prompt (read_diff dp fs).content
              (read_semgrep sp fs jparse).json)).result false hid2 with hc | hc <;>
        rw [hc] at hexit ⊢
      · simp at hexit
      · exact ⟨_, rfl, rfl, rfl⟩

theorem publish_failure_fatal_witness :
    post_review (some "t") (some "o/r") (some 7) (fun _ => Except.error "boom") "review" false =
      ⟨true, none, some "review", some 1⟩ :=
  (publish_failure_fatal (some "t") (some "o/r") (some 7) (fun _ => Except.error "boom")
    "review" "boom" false (by decide) rfl).1

/-- With a truthy credential the generation service is contacted
whatever the remote outcome. -/
theorem call_gemini_networkCalled (api_key : Option String)
    (remote : String → String → String → Except String String) (mp : String)
    (h : truthy api_key = true) :
    (call_gemini_api api_key remote mp).networkCalled = true := by
  simp only [call_gemini_api, h, Bool.not_true, Bool.false_eq_true, if_false]
  cases remote GEMINI_MODEL LLM_PERSONA mp <;> rfl

/-- C1: for every diff text shorter than 10 characters (including the
empty text from an absent or unreadable diff path), a run with a valid
environment never builds a prompt, never calls the generation service,
never reads the findings file, and posts through the publisher in
header-skip mode; when the remote posting call succeeds it posts
exactly the fixed no-significant-change message and exits 0. -/
theorem trivial_diff_short_circuit (env : Env) (dp sp : Option String)
    (fs : String → Option String)
    (jparse : String → Except String (List (String × JValue)))
    (gemini : String → String → String → Except String String)
    (github : String → Except String Unit)
    (henv : envValid env = true)
    (hlen : (read_diff dp fs).content.length < 10) :
    (main_run env dp sp fs jparse gemini github).promptBuilt = none ∧
    (main_run env dp sp fs jparse gemini github).geminiCalled = false ∧
    (main_run env dp sp fs jparse gemini github).findingsRead = false ∧
    (main_run env dp sp fs jparse gemini github).post =
      some (post_review env.github_token env.repo_full_name env.pr_number github
        shortCircuitMsg true) ∧
    (github shortCircuitMsg = .ok () →
      (main_run env dp sp fs jparse gemini github).exitCode = 0 ∧
      (main_run env dp sp fs jparse gemini github).post =
        some ⟨true, some shortCircuitMsg, none, none⟩) := by
  have hid2 := envValid_identity env henv
  have hmain : main_run env dp sp fs jparse gemini github =
      ⟨(post_review env.github_token env.repo_full_name env.pr_number github
          shortCircuitMsg true).exited.getD 0,
        none, (read_diff dp fs).fileRead, false, none, none, false,
        some (post_review env.github_token env.repo_full_name env.pr_number github
          shortCircuitMsg true)⟩ := by
    simp [main_run, henv, hlen]
  rw [hmain]
  refine ⟨rfl, rfl, rfl, rfl, fun hok => ?_⟩
  have hpost : post_review env.github_token env.repo_full_name env.pr_number github
      shortCircuitMsg true = ⟨true, some shortCircuitMsg, none, none⟩ := by
    simp only [post_review, hid2, Bool.not_true, Bool.false_eq_true, if_false, if_true, hok]
  rw [hpost]
  exact ⟨rfl, rfl⟩

theorem trivial_diff_short_circuit_witness :
    (main_run ⟨some "k", some "t", some "o/r", some 7⟩ none none (fun _ => none)
      (fun _ => Except.error "x") (fun _ _ _ => Except.ok "OK")
      (fun _ => Except.ok ())).promptBuilt = none ∧
    (main_run ⟨some "k", some "t", some "o/r", some 7⟩ none none (fun _ => none)
      (fun _ => Except.error "x") (fun _ _ _ => Except.ok "OK")
      (fun _ => Except.ok ())).geminiCalled = false ∧
    (main_run ⟨some "k", some "t", some "o/r", some 7⟩ none none (fun _ => none)
      (fun _ => Except.error "x") (fun _ _ _ => Except.ok "OK")
      (fun _ => Except.ok ())).findingsRead = false ∧
    (main_run ⟨some "k", some "t", some "o/r", some 7⟩ none none (fun _ => none)
      (fun _ => Except.error "x") (fun _ _ _ => Except.ok "OK")
      (fun _ => Except.ok ())).post =
      some (post_review (some "t") (some "o/r") (some 7) (fun _ => Except.ok ())
        shortCircuitMsg true) ∧
    ((fun _ : String => (Except.ok () : Except String Unit)) shortCircuitMsg = Except.ok () →
      (main_run ⟨some "k", some "t", some "o/r", some 7⟩ none none (fun _ => none)
        (fun _ => Except.error "x") (fun _ _ _ => Except.ok "OK")
        (fun _ => Except.ok ())).exitCode = 0 ∧
      (main_run ⟨some "k", some "t", some "o/r", some 7⟩ none none (fun _ => none)
        (fun _ => Except.error "x") (fun _ _ _ => Except.ok "OK")
        (fun _ => Except.ok ())).post = some ⟨true, some shortCircuitMsg, none, none⟩) :=
  trivial_diff_short_circuit ⟨some "k", some "t", some "o/r", some 7⟩ none none
    (fun _ => none) (fun _ => Except.error "x") (fun _ _ _ => Except.ok "OK")
    (fun _ => Except.ok ()) (by decide) (by decide)

/-- Membership in the logged missing-name list matches exactly the
per-variable conditions at lines 169-172, and an absent pull-request
number always fails the validation gate. -/
theorem missingVars_spec (env : Env) :
    ("GEMINI_API_KEY" ∈ missingVars env ↔ truthy env.api_key = false) ∧
    ("GITHUB_TOKEN" ∈ missingVars env ↔ truthy env.github_token = false) ∧
    ("REPO_FULL_NAME" ∈ missingVars env ↔ truthy env.repo_full_name = false) ∧
    ("PR_NUMBER" ∈ missingVars env ↔ env.pr_number = none) ∧
    (env.pr_number = none → envValid env = false) := by
  cases h1 : truthy env.api_key <;> cases h2 : truthy env.github_token <;>
    cases h3 : truthy env.repo_full_name <;> cases h4 : env.pr_number <;>
    simp [missingVars, envValid, intTruthy, h1, h2, h3, h4]

/-- C2: if any of the four required environment values is missing, the
run logs exactly the missing names and exits 1 before reading any input
file, building any prompt, or contacting any service; membership in the
logged list matches each variable's missing condition, and an absent
pull-request number always takes this path. -/
theorem env_validation_gate (env : Env) (dp sp : Option String)
    (fs : String → Option String)
    (jparse : String → Except String (List (String × JValue)))
    (gemini : String → String → String → Except String String)
    (github : String → Except String Unit)
    (henv : envValid env = false) :
    (main_run env dp sp fs jparse gemini github).exitCode = 1 ∧
    (main_run env dp sp fs jparse gemini github).diffRead = false ∧
    (main_run env dp sp fs jparse gemini github).findingsRead = false ∧
    (main_run env dp sp fs jparse gemini github).geminiCalled = false ∧
    (main_run env dp sp fs jparse gemini github).post = none ∧
    (main_run env dp sp fs jparse gemini github).missingLogged =
      some (missingVars env) ∧
    ("GEMINI_API_KEY" ∈ missingVars env ↔ truthy env.api_key = false) ∧
    ("GITHUB_TOKEN" ∈ missingVars env ↔ truthy env.github_token = false) ∧
    ("REPO_FULL_NAME" ∈ missingVars env ↔ truthy env.repo_full_name = false) ∧
    ("PR_NUMBER" ∈ missingVars env ↔ env.pr_number = none) ∧
    (env.pr_number = none → envValid env = false) := by
  have hmain : main_run env dp sp fs jparse gemini github =
      ⟨1, some (missingVars env), false, false, none, none, false, none⟩ := by
    simp [main_run, henv]
  rw [hmain]
  exact ⟨rfl, rfl, rfl, rfl, rfl, rfl, missingVars_spec env⟩

theorem env_validation_gate_witness :
    (main_run ⟨some "k", some "t", some "o/r", none⟩ (some "d.diff") none
      (fun _ => some "0123456789") (fun _ => Except.error "x")
      (fun _ _ _ => Except.ok "OK") (fun _ => Except.ok ())).exitCode = 1 ∧
    (main_run ⟨some "k", some "t", some "o/r", none⟩ (some "d.diff") none
      (fun _ => some "0123456789") (fun _ => Except.error "x")
      (fun _ _ _ => Except.ok "OK") (fun _ => Except.ok ())).diffRead = false ∧
    (main_run ⟨some "k", some "t", some "o/r", none⟩ (some "d.diff") none
      (fun _ => some "0123456789") (fun _ => Except.error "x")
      (fun _ _ _ => Except.ok "OK") (fun _ => Except.ok ())).findingsRead = false ∧
    (main_run ⟨some "k", some "t", some "o/r", none⟩ (some "d.diff") none
      (fun _ => some "0123456789") (fun _ => Except.error "x")
      (fun _ _ _ => Except.ok "OK") (fun _ => Except.ok ())).geminiCalled = false ∧
    (main_run ⟨some "k", some "t", some "o/r", none⟩ (some "d.diff") none
      (fun _ => some "0123456789") (fun _ => Except.error "x")
      (fun _ _ _ => Except.ok "OK") (fun _ => Except.ok ())).post = none ∧
    (main_run ⟨some "k", some "t", some "o/r", none⟩ (some "d.diff") none
      (fun _ => some "0123456789") (fun _ => Except.error "x")
      (fun _ _ _ => Except.ok "OK") (fun _ => Except.ok ())).missingLogged =
      some (missingVars ⟨some "k", some "t", some "o/r", none⟩) ∧
    ("GEMINI_API_KEY" ∈ missingVars ⟨some "k", some "t", some "o/r", none⟩ ↔
      truthy (some "k") = false) ∧
    ("GITHUB_TOKEN" ∈ missingVars ⟨some "k", some "t", some "o/r", none⟩ ↔
      truthy (some "t") = false) ∧
    ("REPO_FULL_NAME" ∈ missingVars ⟨some "k", some "t", some "o/r", none⟩ ↔
      truthy (some "o/r") = false) ∧
    ("PR_NUMBER" ∈ missingVars ⟨some "k", some "t", some "o/r", none⟩ ↔
      (none : Option Int) = none) ∧
    ((none : Option Int) = none →
      envValid ⟨some "k", some "t", some "o/r", none⟩ = false) :=
  env_validation_gate ⟨some "k", some "t", some "o/r", none⟩ (some "d.diff") none
    (fun _ => some "0123456789") (fun _ => Except.error "x")
    (fun _ _ _ => Except.ok "OK") (fun _ => Except.ok ()) (by decide)

/-- C5: when the findings file exists but fails to parse as structured
data, the run continues rather than crashing: the warning carrying the
parse message is emitted, the findings report becomes the error record
carrying that message, the prompt is still built with findings count 0
embedded, and the generation service is still called. -/
theorem malformed_findings_degrade (env : Env) (dp : Option String) (p c e : String)
    (fs : String → Option String)
    (jparse : String → Except String (List (String × JValue)))
    (gemini : String → String → String → Except String String)
    (github : String → Except String Unit)
    (henv : envValid env = true)
    (hlen : ¬ (read_diff dp fs).content.length < 10)
    (hp : p.isEmpty = false) (hfs : fs p = some c) (hparse : jparse c = .error e) :
    (main_run env dp (some p) fs jparse gemini github).parseWarning = some e ∧
    (main_run env dp (some p) fs jparse gemini github).promptBuilt =
      some (create_mega_prompt (read_diff dp fs).content [("error", JValue.str e)]) ∧
    (main_run env dp (some p) fs jparse gemini github).geminiCalled = true ∧
    (∃ pfx sfx, create_mega_prompt (read_diff dp fs).content [("error", JValue.str e)] =
      pfx ++ "\nTotal Findings: 0\n" ++ sfx) := by
  have hsem : read_semgrep (some p) fs jparse = ⟨[("error", JValue.str e)], true, some e⟩ := by
    simp [read_semgrep, hp, hfs, hparse]
  have hk := envValid_api_key env henv
  refine ⟨?_, ?_, ?_, ?_⟩
  · simp [main_run, henv, hlen, hsem]
  · simp [main_run, henv, hlen, hsem]
  · simp [main_run, henv, hlen, hsem]
    exact call_gemini_networkCalled env.api_key gemini _ hk
  · refine ⟨promptIntro (read_diff dp fs).content, promptOutro (JValue.arr []), ?_⟩
    have hres := get_results_error_record e
    have h0 : pyLen (JValue.arr []) = 0 := rfl
    have h1 : toString (0 : Nat) = "0" := by decide
    have lit : ("\nTotal Findings: " : String) ++ ("0" ++ "\n") = "\nTotal Findings: 0\n" := by
      decide
    simp only [create_mega_prompt, hres, h0, h1]
    rw [String.append_assoc
        (promptIntro (read_diff dp fs).content ++ "\nTotal Findings: ") "0" "\n",
      String.append_assoc (promptIntro (read_diff dp fs).content)
        "\nTotal Findings: " ("0" ++ "\n"), lit]

theorem malformed_findings_degrade_witness :
    (main_run ⟨some "k", some "t", some "o/r", some 7⟩ (some "d") (some "s")
      (fun q => if q = "d" then some "0123456789" else some "notjson")
      (fun _ => Except.error "bad") (fun _ _ _ => Except.ok "OK")
      (fun _ => Except.ok ())).parseWarning = some "bad" ∧
    (main_run ⟨some "k", some "t", some "o/r", some 7⟩ (some "d") (some "s")
      (fun q => if q = "d" then some "0123456789" else some "notjson")
      (fun _ => Except.error "bad") (fun _ _ _ => Except.ok "OK")
      (fun _ => Except.ok ())).promptBuilt =
      some (create_mega_prompt
        (read_diff (some "d")
          (fun q => if q = "d" then some "0123456789" else some "notjson")).content
        [("error", JValue.str "bad")]) ∧
    (main_run ⟨some "k", some "t", some "o/r", some 7⟩ (some "d") (some "s")
      (fun q => if q = "d" then some "0123456789" else some "notjson")
      (fun _ => Except.error "bad") (fun _ _ _ => Except.ok "OK")
      (fun _ => Except.ok ())).geminiCalled = true ∧
    (∃ pfx sfx, create_mega_prompt
      (read_diff (some "d")
        (fun q => if q = "d" then some "0123456789" else some "notjson")).content
      [("error", JValue.str "bad")] = pfx ++ "\nTotal Findings: 0\n" ++ sfx) :=
  malformed_findings_degrade ⟨some "k", some "t", some "o/r", some 7⟩ (some "d")
    "s" "notjson" "bad"
    (fun q => if q = "d" then some "0123456789" else some "notjson")
    (fun _ => Except.error "bad") (fun _ _ _ => Except.ok "OK") (fun _ => Except.ok ())
    (by decide) (by decide) (by decide) (by decide) rfl

/-- C10: if `PR_NUMBER` parses to the integer 0 while the other three
required environment values are present, startup validation still exits
1 before reading any file, and the logged missing-name list is empty,
because the parsed value is 0 rather than `None`. -/
theorem pr_number_zero_unlisted (k tok r : String) (dp sp : Option String)
    (fs : String → Option String)
    (jparse : String → Except String (List (String × JValue)))
    (gemini : String → String → String → Except String String)
    (github : String → Except String Unit)
    (hk : k.isEmpty = false) (ht : tok.isEmpty = false) (hr : r.isEmpty = false) :
    parse_pr (some "0") = some 0 ∧
    (main_run ⟨some k, some tok, some r, parse_pr (some "0")⟩ dp sp fs jparse
      gemini github).exitCode = 1 ∧
    (main_run ⟨some k, some tok, some r, parse_pr (some "0")⟩ dp sp fs jparse
      gemini github).diffRead = false ∧
    (main_run ⟨some k, some tok, some r, parse_pr (some "0")⟩ dp sp fs jparse
      gemini github).findingsRead = false ∧
    (main_run ⟨some k, some tok, some r, parse_pr (some "0")⟩ dp sp fs jparse
      gemini github).missingLogged = some [] := by
  have hparse : parse_pr (some "0") = some 0 := by decide
  have henv : envValid ⟨some k, some tok, some r, parse_pr (some "0")⟩ = false := by
    simp [envValid, hparse, intTruthy]
  have hmiss : missingVars ⟨some k, some tok, some r, parse_pr (some "0")⟩ = [] := by
    simp [missingVars, truthy, hk, ht, hr, hparse]
  refine ⟨hparse, ?_, ?_, ?_, ?_⟩ <;> simp [main_run, henv, hmiss]

theorem pr_number_zero_unlisted_witness :
    parse_pr (some "0") = some 0 ∧
    (main_run ⟨some "k", some "t", some "o/r", parse_pr (some "0")⟩ none none
      (fun _ => none) (fun _ => Except.error "x") (fun _ _ _ => Except.ok "OK")
      (fun _ => Except.ok ())).exitCode = 1 ∧
    (main_run ⟨some "k", some "t", some "o/r", parse_pr (some "0")⟩ none none
      (fun _ => none) (fun _ => Except.error "x") (fun _ _ _ => Except.ok "OK")
      (fun _ => Except.ok ())).diffRead = false ∧
    (main_run ⟨some "k", some "t", some "o/r", parse_pr (some "0")⟩ none none
      (fun _ => none) (fun _ => Except.error "x") (fun _ _ _ => Except.ok "OK")
      (fun _ => Except.ok ())).findingsRead = false ∧
    (main_run ⟨some "k", some "t", some "o/r", parse_pr (some "0")⟩ none none
      (fun _ => none) (fun _ => Except.error "x") (fun _ _ _ => Except.ok "OK")
      (fun _ => Except.ok ())).missingLogged = some [] :=
  pr_number_zero_unlisted "k" "t" "o/r" none none (fun _ => none)
    (fun _ => Except.error "x") (fun _ _ _ => Except.ok "OK") (fun _ => Except.ok ())
    (by decide) (by decide) (by decide)

end PRAgent
